import Mathlib

set_option linter.unusedVariables false

/-!
Embedding of the transaction submission and confirmation pipeline of the
repository: `GasEstimationService`, `TransactionRetryService` and the
transaction paths of `WalletService`.

JavaScript `bigint` arithmetic is modelled by `Nat` (all quantities involved
are non-negative and JS bigints are arbitrary precision; `/` on bigints is
truncating division, which agrees with `Nat` division).  JavaScript `number`
values that feed backoff delays and jitter are modelled by `ℚ`.  Network and
provider calls are modelled by explicit oracle inputs: a value
`Except Unit α` (or `Except JsError α`) stands for one awaited provider call
that either returns a value or throws.
-/

/-- JS truthiness of a `bigint | null | undefined` value: `0n`, `null` and
`undefined` are falsy. -/
def truthyNat : Option Nat → Bool
  | none => false
  | some n => n != 0

/-- JS truthiness of a `string | undefined` value: the empty string is falsy. -/
def truthyStr : Option String → Bool
  | none => false
  | some s => s != ""

/-- One gwei in wei. -/
def oneGwei : Nat := 10 ^ 9

/-- Urgency levels accepted by `GasEstimationService.estimateGas`. -/
inductive Urgency | low | medium | high
deriving DecidableEq, Repr

/-- Congestion buckets returned by `detectCongestion`. -/
inductive Congestion | low | medium | high
deriving DecidableEq, Repr

/-- The result of `provider.getFeeData()`: each field is a bigint or null. -/
structure FeeData where
  gasPrice : Option Nat
  maxFeePerGas : Option Nat
  maxPriorityFeePerGas : Option Nat
deriving DecidableEq, Repr

/-- `GasEstimationConfig` from `GasEstimationService`.  The source stores
`priorityMultiplier` as a float and uses it only as
`BigInt(Math.floor(priorityMultiplier * 100))`; we store that floored
percentage directly (the default 1.5 becomes 150). -/
structure GasEstimationConfig where
  bufferPercentage : Nat
  priorityMultiplierPct : Nat
  maxGasPrice : Nat
  useEIP1559 : Bool
deriving Repr

/-- `DEFAULT_CONFIG` of `GasEstimationService`: 20% buffer, priority
multiplier 1.5 (=150%), max gas price 500 gwei, EIP-1559 preferred. -/
def DEFAULT_CONFIG : GasEstimationConfig :=
  { bufferPercentage := 20
    priorityMultiplierPct := 150
    maxGasPrice := 500 * oneGwei
    useEIP1559 := true }

/-- `getUrgencyMultiplier`, scaled by 100 as the source consumes it
(`Math.floor(multiplier * 100)`): low → 90, medium → 100, high → the
configured percentage. -/
def getUrgencyMultiplierPct (cfg : GasEstimationConfig) : Urgency → Nat
  | .low => 90
  | .medium => 100
  | .high => cfg.priorityMultiplierPct

/-- The record returned by `getGasPricing`: either a legacy `gasPrice`, or an
EIP-1559 `maxFeePerGas`/`maxPriorityFeePerGas` pair. -/
structure GasPricing where
  gasPrice : Option Nat
  maxFeePerGas : Option Nat
  maxPriorityFeePerGas : Option Nat
deriving DecidableEq, Repr

/-- `GasEstimationService.getGasPricing`, with the already-fetched
`feeData` passed explicitly.  Note that on the EIP-1559 path only
`maxFeePerGas` is compared against `config.maxGasPrice`; the returned
`maxPriorityFeePerGas` is not capped.  The final branch is the hard-coded
20 gwei fallback, also not capped. -/
def getGasPricing (cfg : GasEstimationConfig) (feeData : FeeData)
    (urgency : Urgency) : GasPricing :=
  if cfg.useEIP1559 && truthyNat feeData.maxFeePerGas &&
      truthyNat feeData.maxPriorityFeePerGas then
    let pct := getUrgencyMultiplierPct cfg urgency
    let maxPriorityFeePerGas := feeData.maxPriorityFeePerGas.getD 0 * pct / 100
    let maxFeePerGas := feeData.maxFeePerGas.getD 0 + maxPriorityFeePerGas
    let cappedMaxFee :=
      if maxFeePerGas > cfg.maxGasPrice then cfg.maxGasPrice else maxFeePerGas
    { gasPrice := none
      maxFeePerGas := some cappedMaxFee
      maxPriorityFeePerGas := some maxPriorityFeePerGas }
  else if truthyNat feeData.gasPrice then
    let pct := getUrgencyMultiplierPct cfg urgency
    let adjustedGasPrice := feeData.gasPrice.getD 0 * pct / 100
    let cappedGasPrice :=
      if adjustedGasPrice > cfg.maxGasPrice then cfg.maxGasPrice
      else adjustedGasPrice
    { gasPrice := some cappedGasPrice
      maxFeePerGas := none
      maxPriorityFeePerGas := none }
  else
    { gasPrice := some (20 * oneGwei)
      maxFeePerGas := none
      maxPriorityFeePerGas := none }

/-- `GasEstimationService.calculateEstimatedCost`: cost in wei for a given
gas limit under the selected pricing (JS truthiness selects the field). -/
def calculateEstimatedCost (gasLimit : Nat) (pricing : GasPricing) : Nat :=
  if truthyNat pricing.maxFeePerGas then gasLimit * pricing.maxFeePerGas.getD 0
  else if truthyNat pricing.gasPrice then gasLimit * pricing.gasPrice.getD 0
  else gasLimit * (20 * oneGwei)

/-- The price `calculateEstimatedCost` multiplies the gas limit by. -/
def selectedPrice (pricing : GasPricing) : Nat :=
  if truthyNat pricing.maxFeePerGas then pricing.maxFeePerGas.getD 0
  else if truthyNat pricing.gasPrice then pricing.gasPrice.getD 0
  else 20 * oneGwei

/-- `GasEstimationService.estimateGasLimit` with the provider call passed as
an `Except` input.  On success a configurable buffer is applied; on failure
the hard-coded defaults (21000 for a plain transfer, 100000 for a call with
payload data) receive a hard-coded 20% buffer. -/
def estimateGasLimit (cfg : GasEstimationConfig)
    (estimateRes : Except Unit Nat) (hasData : Bool) : Nat :=
  match estimateRes with
  | .ok estimated => estimated * (100 + cfg.bufferPercentage) / 100
  | .error _ => if !hasData then 21000 * 120 / 100 else 100000 * 120 / 100

/-- `GasEstimationService.detectCongestion`, with its own `getFeeData` call
passed as an `Except` input.  The gwei thresholds 20 and 50 of the source
compare the float `Number(formatUnits(gasPrice, 9))`; on wei amounts below
2^53 this is the exact comparison against 20·10⁹ and 50·10⁹ wei. -/
def detectCongestion (feeDataRes : Except Unit FeeData) : Congestion :=
  match feeDataRes with
  | .error _ => .medium
  | .ok feeData =>
    let gasPrice :=
      if truthyNat feeData.gasPrice then feeData.gasPrice
      else feeData.maxFeePerGas
    if !truthyNat gasPrice then .medium
    else
      let p := gasPrice.getD 0
      if p < 20 * oneGwei then .low
      else if p < 50 * oneGwei then .medium
      else .high

/-- The `historicalGasUsage` map of `GasEstimationService`, as an
association list from address to the recorded gas-used values. -/
abbrev GasUsageTable := List (String × List Nat)

/-- `Map.get` on the historical table. -/
def tableLookup (table : GasUsageTable) (addr : String) : Option (List Nat) :=
  (table.find? (fun e => e.1 == addr)).map (·.2)

/-- `Map.set` on the historical table. -/
def tableSet (table : GasUsageTable) (addr : String) (h : List Nat) :
    GasUsageTable :=
  if (table.find? (fun e => e.1 == addr)).isSome then
    table.map (fun e => if e.1 == addr then (addr, h) else e)
  else table ++ [(addr, h)]

/-- `GasEstimationService.applyHistoricalAdjustment`: if the average of the
recorded usages for the address exceeds the fresh estimate, return 110% of
the average, else the fresh estimate.  An empty address (JS falsy) or an
absent/empty history leaves the estimate unchanged. -/
def applyHistoricalAdjustment (table : GasUsageTable) (address : String)
    (estimatedGasLimit : Nat) : Nat :=
  if address == "" then estimatedGasLimit
  else
    match tableLookup table address with
    | none => estimatedGasLimit
    | some history =>
      if history.length == 0 then estimatedGasLimit
      else
        let averageUsage := history.sum / history.length
        if averageUsage > estimatedGasLimit then averageUsage * 110 / 100
        else estimatedGasLimit

/-- `GasEstimationService.recordGasUsage`: append the observation and, when
the list then holds more than 10 entries, drop the oldest (`shift`). -/
def recordGasUsage (table : GasUsageTable) (address : String) (gasUsed : Nat) :
    GasUsageTable :=
  if address == "" then table
  else
    let history := (tableLookup table address).getD []
    let history := history ++ [gasUsed]
    let history := if history.length > 10 then history.tail else history
    tableSet table address history

/-- The `GasEstimate` record returned by `GasEstimationService.estimateGas`
(the display-only `estimatedCostETH` string is omitted: it is
`formatEther estimatedCost`, derived and never read back). -/
structure GasEstimate where
  gasLimit : Nat
  gasPrice : Option Nat
  maxFeePerGas : Option Nat
  maxPriorityFeePerGas : Option Nat
  estimatedCost : Nat
  isEIP1559 : Bool
  congestionLevel : Congestion
deriving DecidableEq, Repr

/-- `GasEstimationService.getFallbackEstimate`: gas limit 100000, flat
30 gwei legacy price, legacy pricing model, congestion medium. -/
def getFallbackEstimate : GasEstimate :=
  { gasLimit := 100000
    gasPrice := some (30 * oneGwei)
    maxFeePerGas := none
    maxPriorityFeePerGas := none
    estimatedCost := 100000 * (30 * oneGwei)
    isEIP1559 := false
    congestionLevel := .medium }

/-- The provider calls awaited during one `estimateGas` run.
`getFeeData` is called twice (once in `getGasPricing`, once in
`detectCongestion`), so each call gets its own slot. -/
structure GasOracle where
  estimateGasRes : Except Unit Nat
  feeDataRes : Except Unit FeeData
  congestionFeeDataRes : Except Unit FeeData
deriving Repr

/-- `GasEstimationService.estimateGas`.  Inside the source's try block,
`estimateGasLimit` and `detectCongestion` catch their own provider failures
and recover; the only awaited call whose failure reaches the outer catch is
the `getFeeData` inside `getGasPricing`, and the outer catch returns
`getFallbackEstimate`.  `toAddress` is the source's
`transaction.to?.toString() || ''`.  Note that `estimatedCost` is computed
from the pre-adjustment `estimatedGasLimit`, while the returned `gasLimit`
is the historically adjusted one. -/
def estimateGas (cfg : GasEstimationConfig) (table : GasUsageTable)
    (toAddress : String) (hasData : Bool) (oracle : GasOracle)
    (urgency : Urgency) : GasEstimate :=
  match oracle.feeDataRes with
  | .error _ => getFallbackEstimate
  | .ok feeData =>
    let estimatedGasLimit := estimateGasLimit cfg oracle.estimateGasRes hasData
    let gasPricing := getGasPricing cfg feeData urgency
    let estimatedCost := calculateEstimatedCost estimatedGasLimit gasPricing
    let congestionLevel := detectCongestion oracle.congestionFeeDataRes
    let adjustedGasLimit :=
      applyHistoricalAdjustment table toAddress estimatedGasLimit
    { gasLimit := adjustedGasLimit
      gasPrice := gasPricing.gasPrice
      maxFeePerGas := gasPricing.maxFeePerGas
      maxPriorityFeePerGas := gasPricing.maxPriorityFeePerGas
      estimatedCost := estimatedCost
      isEIP1559 := truthyNat gasPricing.maxFeePerGas
      congestionLevel := congestionLevel }

/-- Substring test on character lists (Lean's own `String` search functions
are byte-position based and do not reduce in the kernel, so all string
manipulation below works on `List Char`). -/
def listContains : List Char → List Char → Bool
  | s, pat =>
    if pat.isPrefixOf s then true
    else
      match s with
      | [] => false
      | _ :: rest => listContains rest pat

/-- JS `String.prototype.includes`. -/
def strIncludes (s pat : String) : Bool := listContains s.data pat.data

/-- The suffix right after the first occurrence of `pat`, if any. -/
def dropAfterFirst : List Char → List Char → Option (List Char)
  | s, pat =>
    if pat.isPrefixOf s then some (s.drop pat.length)
    else
      match s with
      | [] => none
      | _ :: rest => dropAfterFirst rest pat

/-- JS `String.prototype.toUpperCase` on the ASCII strings involved. -/
def jsUpper (s : String) : String := String.mk (s.data.map Char.toUpper)

/-- JS `String.prototype.toLowerCase` on the ASCII strings involved. -/
def jsLower (s : String) : String := String.mk (s.data.map Char.toLower)

/-- The numeric value of a decimal digit string. -/
def digitsToNat (digits : List Char) : Nat :=
  digits.foldl (fun acc c => acc * 10 + (c.toNat - 48)) 0

/-- A JS `Error` as the retry service inspects it: a message, and the
optional `code` property carried by ethers errors. -/
structure JsError where
  message : String
  code : Option String
deriving DecidableEq, Repr

/-- `RetryConfig` of `TransactionRetryService`. -/
structure RetryConfig where
  maxRetries : Nat
  initialDelayMs : Nat
  maxDelayMs : Nat
  backoffMultiplier : Nat
  retryableErrors : List String
deriving Repr

/-- `DEFAULT_RETRY_CONFIG` of `TransactionRetryService`. -/
def DEFAULT_RETRY_CONFIG : RetryConfig :=
  { maxRetries := 3
    initialDelayMs := 1000
    maxDelayMs := 30000
    backoffMultiplier := 2
    retryableErrors :=
      ["NETWORK_ERROR", "TIMEOUT", "SERVER_ERROR", "INSUFFICIENT_FUNDS",
        "NONCE_TOO_LOW", "REPLACEMENT_UNDERPRICED",
        "UNPREDICTABLE_GAS_LIMIT"] }

/-- `TransactionRetryService.isRetryableError`. -/
def isRetryableError (cfg : RetryConfig) (error : JsError) : Bool :=
  let errorMessage := jsUpper error.message
  let errorCode := error.code.map jsUpper
  if cfg.retryableErrors.any
      (fun re => strIncludes errorMessage re || errorCode == some re) then
    true
  else if truthyStr errorCode &&
      ["NETWORK_ERROR", "TIMEOUT", "SERVER_ERROR", "UNKNOWN_ERROR",
        "NOT_IMPLEMENTED"].contains (errorCode.getD "") then
    true
  else if strIncludes errorMessage "RATE" || strIncludes errorMessage "THROTTL" then
    true
  else if strIncludes errorMessage "ETIMEDOUT" ||
      strIncludes errorMessage "ECONNREFUSED" ||
      strIncludes errorMessage "ENOTFOUND" ||
      strIncludes errorMessage "ECONNRESET" then
    true
  else false

/-- `TransactionRetryService.calculateDelay`, with `Math.random()` passed as
the explicit draw `rand ∈ [0,1)`.  Callers always pass `attempt ≥ 1`. -/
def calculateDelay (cfg : RetryConfig) (attempt : Nat) (rand : ℚ) : ℚ :=
  let exponentialDelay : ℚ :=
    (cfg.initialDelayMs : ℚ) * (cfg.backoffMultiplier : ℚ) ^ (attempt - 1)
  let jitteredDelay := exponentialDelay * (1/2 + rand * (1/2))
  min jitteredDelay (cfg.maxDelayMs : ℚ)

/-- Digit-run extraction standing in for the source regex
`/minimum needed (\d+)/` (first occurrence, at least one digit). -/
def extractMinGas (message : String) : Option String :=
  match dropAfterFirst message.data "minimum needed ".data with
  | some rest =>
    let digits := rest.takeWhile Char.isDigit
    if digits.isEmpty then none else some (String.mk digits)
  | none => none

/-- `toLocaleString` grouping of a digit string (commas every three digits
from the right), applied to the reversed character list. -/
def commaRev : Nat → List Char → List Char
  | _, [] => []
  | i, c :: rest =>
    (if i != 0 && i % 3 == 0 then [',', c] else [c]) ++ commaRev (i + 1) rest

/-- `parseInt(digits).toLocaleString()` for a digit string. -/
def groupThousands (digits : String) : String :=
  let n := digitsToNat digits.data
  String.mk ((commaRev 0 (Nat.toDigits 10 n).reverse).reverse)

/-- `TransactionRetryService.getReadableErrorMessage`. -/
def getReadableErrorMessage (message : String) : String :=
  let lowerMessage := jsLower message
  if strIncludes lowerMessage "intrinsic gas too low" then
    let minGas := match extractMinGas message with
      | some digits => groupThousands digits
      | none => "21,000"
    "Transaction failed: Gas limit too low. Please set at least " ++ minGas ++
      " gas"
  else if strIncludes lowerMessage "insufficient funds" then
    "Transaction failed: Insufficient balance to cover transaction and gas fees"
  else if strIncludes lowerMessage "gas required exceeds allowance" then
    "Transaction failed: Gas limit exceeded. Please increase the gas limit"
  else if strIncludes lowerMessage "replacement transaction underpriced" then
    "Transaction failed: A transaction is already pending. Increase gas price to replace it"
  else if strIncludes lowerMessage "nonce too low" then
    "Transaction failed: Transaction conflict detected. Please try again"
  else if strIncludes lowerMessage "already known" then
    "Transaction failed: This transaction has already been submitted"
  else if strIncludes lowerMessage "max fee per gas less than block base fee" then
    "Transaction failed: Gas price too low for current network conditions"
  else if strIncludes lowerMessage "execution reverted" then
    "Transaction failed: Transaction would fail. Please verify the recipient address and amount"
  else if strIncludes lowerMessage "timeout" || strIncludes lowerMessage "etimedout" then
    "Transaction failed: Network timeout. Please try again"
  else if strIncludes lowerMessage "network" || strIncludes lowerMessage "connection" then
    "Transaction failed: Network connection error. Please check your connection"
  else if message.length > 100 then
    "Transaction failed. Please check your inputs and try again"
  else
    "Transaction failed: " ++ message

/-- First-occurrence extraction standing in for the source regex
`"message"` followed by optional whitespace, a colon, optional whitespace
and a non-empty quoted string. -/
def extractCoalesceMessage (message : String) : Option String :=
  match dropAfterFirst message.data "\"message\"".data with
  | some rest =>
    let isWs := fun (c : Char) => c == ' ' || c == '\t' || c == '\n' || c == '\r'
    let t := rest.dropWhile isWs
    match t with
    | ':' :: t1 =>
      let t2 := t1.dropWhile isWs
      match t2 with
      | '\"' :: t3 =>
        let inner := t3.takeWhile (fun c => c != '\"')
        if inner.isEmpty then none else some (String.mk inner)
      | _ => none
    | _ => none
  | none => none

/-- `TransactionRetryService.parseErrorMessage`. -/
def parseErrorMessage (message : String) : String :=
  if strIncludes message "could not coalesce error" then
    match extractCoalesceMessage message with
    | some innerMessage => getReadableErrorMessage innerMessage
    | none => "Transaction failed. Please check gas settings and try again"
  else getReadableErrorMessage message

/-- An ethers `TransactionRequest` as the pipeline mutates it. -/
structure TxReq where
  toAddr : String
  value : Nat
  gasPrice : Option Nat
  gasLimit : Option Nat
  nonce : Option Nat
  maxFeePerGas : Option Nat
  maxPriorityFeePerGas : Option Nat
deriving DecidableEq, Repr

/-- The provider/wallet calls awaited during one iteration of
`executeWithRetry`: the submission outcome, plus the three fetches done by
`adjustGasParameters` (fee data gasPrice field, gas re-estimation, pending
nonce), each of which may throw. -/
structure AttemptEnv where
  sendResult : Except JsError String
  feeDataRes : Except Unit (Option Nat)
  estimateGasRes : Except Unit Nat
  nonceRes : Except Unit Nat

/-- `Math.floor((1 + 0.1 * attempt) * 100)`.  For the attempt values 1 and 2
reachable under the default attempt budget the float computation yields
exactly `100 + 10 * attempt`, which is the value used here. -/
def bumpPct (attempt : Nat) : Nat := 100 + 10 * attempt

/-- `TransactionRetryService.adjustGasParameters`.  The source wraps the
three provider calls in one try/catch that swallows the failure and returns
whatever was adjusted so far; `getFeeData` is the first call, so its failure
returns the transaction unchanged, while a `getTransactionCount` failure
keeps the gas adjustments already made.  The gas-limit and nonce refreshes
are skipped when the incoming request already pins a truthy value. -/
def adjustGasParameters (env : AttemptEnv) (transaction : TxReq)
    (attempt : Nat) : TxReq :=
  match env.feeDataRes with
  | .error _ => transaction
  | .ok fdGasPrice =>
    let adjusted1 :=
      if truthyNat fdGasPrice then
        { transaction with
          gasPrice := some (fdGasPrice.getD 0 * bumpPct attempt / 100) }
      else transaction
    let adjusted2 :=
      if !truthyNat transaction.gasLimit then
        match env.estimateGasRes with
        | .ok estimatedGas =>
          { adjusted1 with gasLimit := some (estimatedGas * 120 / 100) }
        | .error _ => { adjusted1 with gasLimit := some 100000 }
      else adjusted1
    if !truthyNat transaction.nonce then
      match env.nonceRes with
      | .ok nonce => { adjusted2 with nonce := some nonce }
      | .error _ => adjusted2
    else adjusted2

/-- Observable events of one `executeWithRetry` run: each send attempt with
the gas price the request carried at that moment, and each backoff sleep
with its duration. -/
inductive REvent
  | attempted (gasPrice : Option Nat)
  | slept (ms : ℚ)
deriving DecidableEq, Repr

/-- The while-loop of `TransactionRetryService.executeWithRetry`, with
fuel bounding the iteration count (callers pass `maxRetries + 1`, enough
for every reachable iteration).  On a non-retryable error the original
error is rethrown at once; on exhaustion a fresh `Error` with the
normalized message of the last error is thrown. -/
def executeGo (cfg : RetryConfig) (envs : Nat → AttemptEnv) (rands : Nat → ℚ) :
    TxReq → Nat → Option JsError → Nat → Except JsError String × List REvent
  | _, _, lastError, 0 =>
    (.error ⟨parseErrorMessage ((lastError.map JsError.message).getD
      "Transaction failed"), none⟩, [])
  | transaction, attempt, lastError, fuel + 1 =>
    if attempt < cfg.maxRetries then
      let tx' :=
        if attempt > 0 then adjustGasParameters (envs attempt) transaction attempt
        else transaction
      match (envs attempt).sendResult with
      | .ok hash => (.ok hash, [.attempted tx'.gasPrice])
      | .error e =>
        if !isRetryableError cfg e then (.error e, [.attempted tx'.gasPrice])
        else if attempt + 1 < cfg.maxRetries then
          let d := calculateDelay cfg (attempt + 1) (rands (attempt + 1))
          let rest := executeGo cfg envs rands tx' (attempt + 1) (some e) fuel
          (rest.1, .attempted tx'.gasPrice :: .slept d :: rest.2)
        else
          let rest := executeGo cfg envs rands tx' (attempt + 1) (some e) fuel
          (rest.1, .attempted tx'.gasPrice :: rest.2)
    else
      (.error ⟨parseErrorMessage ((lastError.map JsError.message).getD
        "Transaction failed"), none⟩, [])

/-- `TransactionRetryService.executeWithRetry`. -/
def executeWithRetry (cfg : RetryConfig) (envs : Nat → AttemptEnv)
    (rands : Nat → ℚ) (transaction : TxReq) :
    Except JsError String × List REvent :=
  executeGo cfg envs rands transaction 0 none (cfg.maxRetries + 1)

/-- The gas prices of the successive send attempts of a run, in order. -/
def attemptPrices (events : List REvent) : List (Option Nat) :=
  events.filterMap fun ev =>
    match ev with
    | .attempted p => some p
    | _ => none

/-- The backoff delays slept during a run, in order. -/
def sleptDelays (events : List REvent) : List ℚ :=
  events.filterMap fun ev =>
    match ev with
    | .slept d => some d
    | _ => none

/-- A transaction receipt: outcome status (1 success, 0 revert), block
number, gas consumed. -/
structure Receipt where
  status : Nat
  blockNumber : Nat
  gasUsed : Nat
deriving DecidableEq, Repr

/-- The while-loop of
`TransactionRetryService.waitForConfirmationWithRetry`, with each
attempt's `tx.wait` outcome passed as an oracle (`.ok (some r)` a receipt,
`.ok none` a null receipt, `.error` a raised error).  A receipt whose
status is 0 makes the loop throw `Transaction reverted: ...`; that throw
lands in the loop's own catch, which retries every error without any
retryability check.  Exhaustion returns null, never a receipt. -/
def waitForConfirmationGo (cfg : RetryConfig)
    (waits : Nat → Except JsError (Option Receipt)) :
    Nat → Nat → Option Receipt
  | _, 0 => none
  | attempt, fuel + 1 =>
    if attempt < cfg.maxRetries then
      match waits attempt with
      | .ok (some receipt) =>
        if receipt.status == 1 then some receipt
        else if receipt.status == 0 then
          waitForConfirmationGo cfg waits (attempt + 1) fuel
        else some receipt
      | .ok none => none
      | .error _ => waitForConfirmationGo cfg waits (attempt + 1) fuel
    else none

/-- `TransactionRetryService.waitForConfirmationWithRetry`. -/
def waitForConfirmationWithRetry (cfg : RetryConfig)
    (waits : Nat → Except JsError (Option Receipt)) : Option Receipt :=
  waitForConfirmationGo cfg waits 0 (cfg.maxRetries + 1)

/-- Status column of the `Transaction` entity. -/
inductive TxStatus | pending | confirmed | failed
deriving DecidableEq, Repr

/-- The persisted `Transaction` record as the pipeline reads and writes it.
The entity stores `amount` and `gasUsed` as decimal strings of the numeric
values modelled here. -/
structure TransactionRecord where
  transactionHash : String
  walletId : String
  fromAddr : String
  toAddr : String
  amountWei : Nat
  status : TxStatus
  blockNumber : Option Nat
  gasUsed : Option Nat
  gasPriceGwei : Option String
deriving DecidableEq, Repr

/-- The `transactionData` literal persisted by `WalletService.sendTransaction`
right after a successful broadcast: always status `pending`, no block data,
`gasPrice` copied only when the caller supplied one (JS truthiness). -/
def createTransactionRecord (walletId hash fromAddr toAddr : String)
    (amountWei : Nat) (gasPriceGwei : Option String) : TransactionRecord :=
  { transactionHash := hash
    walletId := walletId
    fromAddr := fromAddr
    toAddr := toAddr
    amountWei := amountWei
    status := .pending
    blockNumber := none
    gasUsed := none
    gasPriceGwei := if truthyStr gasPriceGwei then gasPriceGwei else none }

/-- The record update performed by the background continuation of
`WalletService.sendTransaction` (`.then`/`.catch` on
`waitForConfirmationWithRetry`): a resolved receipt sets a terminal status
from `receipt.status` and populates block number and gas used; a null
resolution (confirmation timeout) and a raised error both set `failed`
without touching block data.  The write is unconditional: the current
status of the record is never consulted. -/
def confirmationContinuationRecord (saved : TransactionRecord)
    (outcome : Except JsError (Option Receipt)) : TransactionRecord :=
  match outcome with
  | .ok (some receipt) =>
    { saved with
      status := if receipt.status == 1 then .confirmed else .failed
      blockNumber := some receipt.blockNumber
      gasUsed := some receipt.gasUsed }
  | .ok none => { saved with status := .failed }
  | .error _ => { saved with status := .failed }

/-- The per-record update performed by
`WalletService.getTransactionHistory`: only records still `pending` are
looked up; a mined receipt sets the terminal status and block data, a null
receipt or a lookup error leaves the record as it is. -/
def historyPollUpdate (tx : TransactionRecord)
    (receiptRes : Except Unit (Option Receipt)) : TransactionRecord :=
  if tx.status == .pending then
    match receiptRes with
    | .ok (some receipt) =>
      { tx with
        status := if receipt.status == 1 then .confirmed else .failed
        blockNumber := some receipt.blockNumber
        gasUsed := some receipt.gasUsed }
    | .ok none => tx
    | .error _ => tx
  else tx

/-- Observable side effects of the orchestrated send paths. -/
inductive OrchEvent
  | estimatedEv
  | submittedEv
  | createdRecordEv
  | savedRecordEv (r : TransactionRecord)
  | websocketEv (hash : String) (status : TxStatus)
  | auditEv
  | recordedGasUsageEv (addr : String) (gasUsed : Nat)
deriving DecidableEq, Repr

/-- The background continuation of `WalletService.sendTransaction`, with
the estimator's historical table threaded through to make its (absent)
interaction with `GasEstimationService` explicit: the source continuation
saves the updated record, emits one WebSocket update and writes one audit
entry; it contains no call into the estimator, so the table is returned
unchanged and no gas-usage event is emitted. -/
def confirmationContinuation (saved : TransactionRecord)
    (table : GasUsageTable) (outcome : Except JsError (Option Receipt)) :
    TransactionRecord × GasUsageTable × List OrchEvent :=
  let updated := confirmationContinuationRecord saved outcome
  (updated, table,
    [.savedRecordEv updated, .websocketEv updated.transactionHash updated.status,
      .auditEv])

/-- `ethers.parseUnits(s, 9)` (gwei to wei) on the integer decimal strings
the send API accepts as `gasPrice`. -/
def parseUnitsGwei (s : String) : Nat :=
  if !s.data.isEmpty && s.data.all Char.isDigit then
    digitsToNat s.data * oneGwei
  else 0

/-- The caller-controlled fields of a send request. -/
structure SendInput where
  walletId : String
  toAddr : String
  amountWei : Nat
  gasLimit : Option Nat
  gasPriceGwei : Option String

/-- Errors the synchronous send path can raise. -/
inductive SendError
  | insufficientBalance (required balance : Nat)
  | submissionFailure (e : JsError)
deriving DecidableEq, Repr

/-- The collaborators consulted by one `sendTransaction` call: the wallet
balance, the estimator result, and the per-attempt submission environment
of the retry executor. -/
structure SendContext where
  balance : Nat
  estimate : GasEstimate
  envs : Nat → AttemptEnv
  rands : Nat → ℚ

/-- The broadcast-and-persist phase shared by both validation branches of
`WalletService.sendTransaction`: submission via the retry executor with the
default retry config, then creation of the pending record and the pending
WebSocket/audit notifications. -/
def sendSubmitPhase (data : SendInput) (fromAddr : String) (cx : SendContext)
    (req : TxReq) (evs : List OrchEvent) :
    Except SendError TransactionRecord × List OrchEvent :=
  let submission := executeWithRetry DEFAULT_RETRY_CONFIG cx.envs cx.rands req
  match submission.1 with
  | .error e => (.error (.submissionFailure e), evs ++ [.submittedEv])
  | .ok hash =>
    let record := createTransactionRecord data.walletId hash fromAddr
      data.toAddr data.amountWei data.gasPriceGwei
    (.ok record,
      evs ++ [.submittedEv, .createdRecordEv, .websocketEv hash .pending,
        .auditEv])

/-- The synchronous path of `WalletService.sendTransaction` (the second,
full implementation in the file).  When either gas parameter is missing
(JS truthiness on `!data.gasLimit || !data.gasPrice`), the estimator is
invoked, the request is filled from it, and the balance is checked against
`amount + estimatedCost`; when the caller supplies both, the request uses
the supplied values and the balance is checked against the amount alone.
An insufficient balance raises before any submission and before any record
is created. -/
def sendTransactionSync (data : SendInput) (fromAddr : String)
    (cx : SendContext) : Except SendError TransactionRecord × List OrchEvent :=
  let amountWei := data.amountWei
  let base : TxReq :=
    { toAddr := data.toAddr, value := amountWei, gasPrice := none,
      gasLimit := none, nonce := none, maxFeePerGas := none,
      maxPriorityFeePerGas := none }
  if !truthyNat data.gasLimit || !truthyStr data.gasPriceGwei then
    let gasEstimate := cx.estimate
    let req1 := { base with gasLimit := some (data.gasLimit.getD gasEstimate.gasLimit) }
    let req2 :=
      if truthyNat gasEstimate.maxFeePerGas &&
          truthyNat gasEstimate.maxPriorityFeePerGas then
        { req1 with
          maxFeePerGas := gasEstimate.maxFeePerGas
          maxPriorityFeePerGas := gasEstimate.maxPriorityFeePerGas }
      else if truthyStr data.gasPriceGwei then
        { req1 with gasPrice := some (parseUnitsGwei (data.gasPriceGwei.getD "")) }
      else if truthyNat gasEstimate.gasPrice then
        { req1 with gasPrice := gasEstimate.gasPrice }
      else req1
    let totalCost := amountWei + gasEstimate.estimatedCost
    if cx.balance < totalCost then
      (.error (.insufficientBalance totalCost cx.balance),
        [.estimatedEv, .auditEv])
    else
      sendSubmitPhase data fromAddr cx req2 [.estimatedEv, .auditEv]
  else
    let req1 := { base with gasLimit := data.gasLimit }
    let req2 :=
      if truthyStr data.gasPriceGwei then
        { req1 with gasPrice := some (parseUnitsGwei (data.gasPriceGwei.getD "")) }
      else req1
    if cx.balance < amountWei then
      (.error (.insufficientBalance amountWei cx.balance), [])
    else
      sendSubmitPhase data fromAddr cx req2 []

/-- C5: the estimator's estimate operation is total (its Lean embedding
returns a plain `GasEstimate`, mirroring the outer catch of the source),
and when the network fee query throws it returns the conservative fallback
plan: gas limit 100000, flat legacy price of 30 gwei, legacy pricing model,
congestion medium. -/
theorem estimateGas_feeQueryThrows_returnsFallback
    (cfg : GasEstimationConfig) (table : GasUsageTable) (toAddress : String)
    (hasData : Bool) (oracle : GasOracle) (urgency : Urgency)
    (h : oracle.feeDataRes = .error ()) :
    estimateGas cfg table toAddress hasData oracle urgency =
      getFallbackEstimate ∧
    getFallbackEstimate.gasLimit = 100000 ∧
    getFallbackEstimate.gasPrice = some (30 * oneGwei) ∧
    getFallbackEstimate.isEIP1559 = false ∧
    getFallbackEstimate.congestionLevel = .medium := by
  refine ⟨?_, rfl, rfl, rfl, rfl⟩
  unfold estimateGas
  rw [h]

theorem estimateGas_feeQueryThrows_returnsFallback_witness :
    estimateGas DEFAULT_CONFIG [] "0xabc" false
        ⟨.ok 21000, .error (), .ok ⟨some oneGwei, none, none⟩⟩ .medium =
      getFallbackEstimate ∧
    getFallbackEstimate.gasLimit = 100000 ∧
    getFallbackEstimate.gasPrice = some (30 * oneGwei) ∧
    getFallbackEstimate.isEIP1559 = false ∧
    getFallbackEstimate.congestionLevel = .medium :=
  estimateGas_feeQueryThrows_returnsFallback DEFAULT_CONFIG [] "0xabc" false
    ⟨.ok 21000, .error (), .ok ⟨some oneGwei, none, none⟩⟩ .medium rfl

/-- C6 counterexample: with the default configuration (ceiling 500 gwei),
fee data reporting a 600 gwei priority fee and medium urgency, the returned
`maxPriorityFeePerGas` is 600 gwei, strictly above the ceiling — the
EIP-1559 priority fee is not clamped, refuting the claim that every fee
value in the plan is at most the ceiling. -/
theorem getGasPricing_priorityFee_exceedsCeiling :
    (getGasPricing DEFAULT_CONFIG
        ⟨none, some 1, some (600 * oneGwei)⟩ .medium).maxPriorityFeePerGas =
      some (600 * oneGwei) ∧
    DEFAULT_CONFIG.maxGasPrice < 600 * oneGwei := by
  constructor
  · decide
  · decide

/-- C6 amended: the legacy gas price and the EIP-1559 max fee are clamped
to the configured ceiling (never rejected — the function is total), under
the proviso that the ceiling is at least the 20 gwei hard-coded fallback
price; the max priority fee, however, is returned unclamped. -/
theorem getGasPricing_legacyAndMaxFee_clamped
    (cfg : GasEstimationConfig) (feeData : FeeData) (urgency : Urgency)
    (hcap : 20 * oneGwei ≤ cfg.maxGasPrice) :
    (getGasPricing cfg feeData urgency).gasPrice.getD 0 ≤ cfg.maxGasPrice ∧
    (getGasPricing cfg feeData urgency).maxFeePerGas.getD 0 ≤
      cfg.maxGasPrice := by
  unfold getGasPricing
  split
  · constructor
    · simp
    · simp only [Option.getD_some]
      split <;> omega
  · split
    · constructor
      · simp only [Option.getD_some]
        split <;> omega
      · simp
    · constructor
      · simpa using hcap
      · simp

theorem getGasPricing_legacyAndMaxFee_clamped_witness :
    (getGasPricing DEFAULT_CONFIG
        ⟨some (40 * oneGwei), none, none⟩ .high).gasPrice.getD 0 ≤
      DEFAULT_CONFIG.maxGasPrice ∧
    (getGasPricing DEFAULT_CONFIG
        ⟨some (40 * oneGwei), none, none⟩ .high).maxFeePerGas.getD 0 ≤
      DEFAULT_CONFIG.maxGasPrice :=
  getGasPricing_legacyAndMaxFee_clamped DEFAULT_CONFIG
    ⟨some (40 * oneGwei), none, none⟩ .high (by decide)

/-- `calculateEstimatedCost` is the gas limit times the selected price. -/
theorem calculateEstimatedCost_eq_selectedPrice (gasLimit : Nat)
    (pricing : GasPricing) :
    calculateEstimatedCost gasLimit pricing = gasLimit * selectedPrice pricing := by
  unfold calculateEstimatedCost selectedPrice
  split
  · rfl
  · split <;> rfl

/-- C10: in a successful (non-fallback) estimate, the returned
`estimatedCost` is the selected fee price times the pre-adjustment buffered
gas-limit estimate; hence when the historical adjustment raises the
returned `gasLimit`, the plan satisfies `estimatedCost < gasLimit × price`;
and the orchestrator's estimation-path balance check uses exactly this
(smaller) `estimatedCost` in its threshold. -/
theorem estimateGas_cost_usesPreAdjustmentLimit
    (cfg : GasEstimationConfig) (table : GasUsageTable) (toAddress : String)
    (hasData : Bool) (oracle : GasOracle) (urgency : Urgency) (fd : FeeData)
    (hok : oracle.feeDataRes = .ok fd)
    (hraise : estimateGasLimit cfg oracle.estimateGasRes hasData <
      (estimateGas cfg table toAddress hasData oracle urgency).gasLimit)
    (hp : 0 < selectedPrice (getGasPricing cfg fd urgency))
    (data : SendInput) (fromAddr : String) (cx : SendContext)
    (hbranch : (!truthyNat data.gasLimit || !truthyStr data.gasPriceGwei) = true)
    (hbal : cx.balance < data.amountWei + cx.estimate.estimatedCost) :
    (estimateGas cfg table toAddress hasData oracle urgency).estimatedCost =
      estimateGasLimit cfg oracle.estimateGasRes hasData *
        selectedPrice (getGasPricing cfg fd urgency) ∧
    (estimateGas cfg table toAddress hasData oracle urgency).estimatedCost <
      (estimateGas cfg table toAddress hasData oracle urgency).gasLimit *
        selectedPrice (getGasPricing cfg fd urgency) ∧
    (sendTransactionSync data fromAddr cx).1 =
      .error (.insufficientBalance (data.amountWei + cx.estimate.estimatedCost)
        cx.balance) := by
  have hcost : (estimateGas cfg table toAddress hasData oracle urgency).estimatedCost =
      estimateGasLimit cfg oracle.estimateGasRes hasData *
        selectedPrice (getGasPricing cfg fd urgency) := by
    simp only [estimateGas, hok]
    exact calculateEstimatedCost_eq_selectedPrice _ _
  refine ⟨hcost, ?_, ?_⟩
  · rw [hcost]
    exact Nat.mul_lt_mul_of_lt_of_le hraise (Nat.le_refl _) hp
  · simp only [sendTransactionSync, hbranch, if_true]
    rw [if_pos hbal]

theorem estimateGas_cost_usesPreAdjustmentLimit_witness :
    (estimateGas DEFAULT_CONFIG [("0xb", [200000])] "0xb" false
        ⟨.ok 21000, .ok ⟨some (10 * oneGwei), none, none⟩,
          .ok ⟨some (10 * oneGwei), none, none⟩⟩ .medium).estimatedCost =
      estimateGasLimit DEFAULT_CONFIG (.ok 21000) false *
        selectedPrice (getGasPricing DEFAULT_CONFIG
          ⟨some (10 * oneGwei), none, none⟩ .medium) ∧
    (estimateGas DEFAULT_CONFIG [("0xb", [200000])] "0xb" false
        ⟨.ok 21000, .ok ⟨some (10 * oneGwei), none, none⟩,
          .ok ⟨some (10 * oneGwei), none, none⟩⟩ .medium).estimatedCost <
      (estimateGas DEFAULT_CONFIG [("0xb", [200000])] "0xb" false
        ⟨.ok 21000, .ok ⟨some (10 * oneGwei), none, none⟩,
          .ok ⟨some (10 * oneGwei), none, none⟩⟩ .medium).gasLimit *
        selectedPrice (getGasPricing DEFAULT_CONFIG
          ⟨some (10 * oneGwei), none, none⟩ .medium) ∧
    (sendTransactionSync ⟨"w1", "0xb", 10 ^ 18, none, none⟩ "0xa"
        ⟨0, estimateGas DEFAULT_CONFIG [("0xb", [200000])] "0xb" false
          ⟨.ok 21000, .ok ⟨some (10 * oneGwei), none, none⟩,
            .ok ⟨some (10 * oneGwei), none, none⟩⟩ .medium,
          fun _ => ⟨.ok "0xh", .ok none, .ok 21000, .ok 1⟩, fun _ => 0⟩).1 =
      .error (.insufficientBalance
        (10 ^ 18 + (estimateGas DEFAULT_CONFIG [("0xb", [200000])] "0xb" false
          ⟨.ok 21000, .ok ⟨some (10 * oneGwei), none, none⟩,
            .ok ⟨some (10 * oneGwei), none, none⟩⟩ .medium).estimatedCost) 0) :=
  estimateGas_cost_usesPreAdjustmentLimit DEFAULT_CONFIG [("0xb", [200000])]
    "0xb" false
    ⟨.ok 21000, .ok ⟨some (10 * oneGwei), none, none⟩,
      .ok ⟨some (10 * oneGwei), none, none⟩⟩ .medium
    ⟨some (10 * oneGwei), none, none⟩ rfl (by decide) (by decide)
    ⟨"w1", "0xb", 10 ^ 18, none, none⟩ "0xa"
    ⟨0, estimateGas DEFAULT_CONFIG [("0xb", [200000])] "0xb" false
      ⟨.ok 21000, .ok ⟨some (10 * oneGwei), none, none⟩,
        .ok ⟨some (10 * oneGwei), none, none⟩⟩ .medium,
      fun _ => ⟨.ok "0xh", .ok none, .ok 21000, .ok 1⟩, fun _ => 0⟩
    rfl (by decide)

/-- C1: evaluating the confirmation path at a receipt whose status
indicates an on-chain revert (status 0, block 55, gas used 40000): the
watcher turns the receipt into a thrown `Transaction reverted` error, its
own catch retries it, and after the attempt budget it resolves with null —
so the orchestrator's continuation takes the timeout branch and the final
record is `failed` with no block number and no gas-used value, the same
terminal shape as a confirmation timeout, contrary to the claim (and to the
orchestrator's own unreachable receipt-status branch). -/
theorem revertReceipt_retriedThenNull_recordLacksBlockData :
    waitForConfirmationWithRetry DEFAULT_RETRY_CONFIG
        (fun _ => .ok (some ⟨0, 55, 40000⟩)) = none ∧
    (confirmationContinuationRecord
        (createTransactionRecord "w1" "0xh" "0xa" "0xb" 1000 none)
        (.ok (waitForConfirmationWithRetry DEFAULT_RETRY_CONFIG
          (fun _ => .ok (some ⟨0, 55, 40000⟩))))).status = .failed ∧
    (confirmationContinuationRecord
        (createTransactionRecord "w1" "0xh" "0xa" "0xb" 1000 none)
        (.ok (waitForConfirmationWithRetry DEFAULT_RETRY_CONFIG
          (fun _ => .ok (some ⟨0, 55, 40000⟩))))).blockNumber = none ∧
    (confirmationContinuationRecord
        (createTransactionRecord "w1" "0xh" "0xa" "0xb" 1000 none)
        (.ok (waitForConfirmationWithRetry DEFAULT_RETRY_CONFIG
          (fun _ => .ok (some ⟨0, 55, 40000⟩))))).gasUsed = none := by
  refine ⟨by decide, by decide, by decide, by decide⟩

/-- C8 counterexample: a record created pending, then marked confirmed by
the history-poll path (receipt status 1, block 100), is afterwards flipped
to `failed` by a late confirmation-timeout continuation, because that
continuation's write is unconditional — refuting the claim that a record
already in a terminal state is never flipped by a later writer. -/
theorem confirmedRecord_flippedByLateTimeoutContinuation :
    (historyPollUpdate
        (createTransactionRecord "w1" "0xh" "0xa" "0xb" 1000 none)
        (.ok (some ⟨1, 100, 21000⟩))).status = .confirmed ∧
    (confirmationContinuationRecord
        (historyPollUpdate
          (createTransactionRecord "w1" "0xh" "0xa" "0xb" 1000 none)
          (.ok (some ⟨1, 100, 21000⟩)))
        (.ok none)).status = .failed := by
  refine ⟨by decide, by decide⟩

/-- C8 amended: records are created only in status pending; both writers
preserve the transaction hash; the history-poll writer never touches a
record that is already terminal; and the continuation writes only terminal
statuses — but (per the counterexample) the continuation's write is
unconditional and can overwrite an already-confirmed record. -/
theorem recordLifecycle_invariants
    (walletId hash fromAddr toAddr : String) (amountWei : Nat)
    (gasPriceGwei : Option String) (r : TransactionRecord)
    (outcome : Except JsError (Option Receipt))
    (receiptRes : Except Unit (Option Receipt))
    (hterm : r.status ≠ .pending) :
    (createTransactionRecord walletId hash fromAddr toAddr amountWei
      gasPriceGwei).status = .pending ∧
    (confirmationContinuationRecord r outcome).transactionHash =
      r.transactionHash ∧
    (historyPollUpdate r receiptRes).transactionHash = r.transactionHash ∧
    historyPollUpdate r receiptRes = r ∧
    (confirmationContinuationRecord r outcome).status ≠ .pending := by
  refine ⟨rfl, ?_, ?_, ?_, ?_⟩
  · cases outcome with
    | ok o => cases o <;> rfl
    | error e => rfl
  · unfold historyPollUpdate
    split
    · cases receiptRes with
      | ok o => cases o <;> rfl
      | error e => rfl
    · rfl
  · unfold historyPollUpdate
    rw [if_neg (by simpa using hterm)]
  · cases outcome with
    | ok o =>
      cases o with
      | none => simp [confirmationContinuationRecord]
      | some receipt =>
        simp only [confirmationContinuationRecord]
        split <;> simp
    | error e => simp [confirmationContinuationRecord]

theorem recordLifecycle_invariants_witness :
    (createTransactionRecord "w1" "0xh" "0xa" "0xb" 1000 none).status =
      .pending ∧
    (confirmationContinuationRecord
        { createTransactionRecord "w2" "0xh2" "0xa" "0xb" 5 none with
            status := .confirmed }
        (.ok (some ⟨1, 7, 21000⟩))).transactionHash =
      ({ createTransactionRecord "w2" "0xh2" "0xa" "0xb" 5 none with
          status := .confirmed } : TransactionRecord).transactionHash ∧
    (historyPollUpdate
        { createTransactionRecord "w2" "0xh2" "0xa" "0xb" 5 none with
            status := .confirmed }
        (.ok none)).transactionHash =
      ({ createTransactionRecord "w2" "0xh2" "0xa" "0xb" 5 none with
          status := .confirmed } : TransactionRecord).transactionHash ∧
    historyPollUpdate
        { createTransactionRecord "w2" "0xh2" "0xa" "0xb" 5 none with
            status := .confirmed }
        (.ok none) =
      { createTransactionRecord "w2" "0xh2" "0xa" "0xb" 5 none with
          status := .confirmed } ∧
    (confirmationContinuationRecord
        { createTransactionRecord "w2" "0xh2" "0xa" "0xb" 5 none with
            status := .confirmed }
        (.ok (some ⟨1, 7, 21000⟩))).status ≠ .pending :=
  recordLifecycle_invariants "w1" "0xh" "0xa" "0xb" 1000 none
    { createTransactionRecord "w2" "0xh2" "0xa" "0xb" 5 none with
        status := .confirmed }
    (.ok (some ⟨1, 7, 21000⟩)) (.ok none) (by decide)

/-- Recognizer for gas-usage recording among the orchestration events. -/
def isGasRecordEv : OrchEvent → Bool
  | .recordedGasUsageEv _ _ => true
  | _ => false

/-- Looking up the updated key after the map-update branch of `tableSet`. -/
theorem tableLookup_map_update (t : GasUsageTable) (a : String) (h : List Nat)
    (hs : (t.find? (fun e => e.1 == a)).isSome = true) :
    tableLookup (t.map (fun e => if e.1 == a then (a, h) else e)) a = some h := by
  induction t with
  | nil => simp [List.find?] at hs
  | cons e rest ih =>
    cases he : (e.1 == a) with
    | true => simp [tableLookup, List.find?, he]
    | false =>
      simp only [List.find?, he] at hs
      simp only [tableLookup, List.map_cons, List.find?, he,
        Bool.false_eq_true, if_false]
      exact ih hs

/-- Looking up a freshly appended key after the append branch of
`tableSet`. -/
theorem tableLookup_append_new (t : GasUsageTable) (a : String) (h : List Nat)
    (hs : t.find? (fun e => e.1 == a) = none) :
    tableLookup (t ++ [(a, h)]) a = some h := by
  induction t with
  | nil => simp [tableLookup, List.find?]
  | cons e rest ih =>
    have he : (e.1 == a) = false := by
      cases hpe : (e.1 == a) with
      | true => simp [List.find?, hpe] at hs
      | false => rfl
    simp only [List.cons_append]
    rw [tableLookup] at ih ⊢
    simp only [List.find?_cons_of_neg, he, not_false_eq_true,
      Bool.false_eq_true]
    apply ih
    simpa [List.find?, he] using hs

/-- Looking up a key right after `tableSet` on that key. -/
theorem tableLookup_tableSet (t : GasUsageTable) (a : String) (h : List Nat) :
    tableLookup (tableSet t a h) a = some h := by
  unfold tableSet
  split
  · exact tableLookup_map_update t a h (by assumption)
  · apply tableLookup_append_new
    rename_i hns
    cases hfind : t.find? (fun e => e.1 == a) with
    | none => rfl
    | some v => exact absurd (by simp [hfind]) hns

/-- C7 counterexample: the confirmation continuation run on a resolved
receipt (status 1, gas used 12345, counterparty record created for "0xb")
leaves the estimator's historical table unchanged (still empty, so the
lookup under the counterparty key stays `none`) and emits no gas-recording
event — even though `recordGasUsage` itself, had it been called, would have
stored the observation.  The feedback loop claimed by the spec does not
exist in the code. -/
theorem confirmationContinuation_doesNotRecordGasUsage :
    tableLookup (confirmationContinuation
        (createTransactionRecord "w1" "0xh" "0xa" "0xb" 1000 none) []
        (.ok (some ⟨1, 100, 12345⟩))).2.1 "0xb" = none ∧
    ((confirmationContinuation
        (createTransactionRecord "w1" "0xh" "0xa" "0xb" 1000 none) []
        (.ok (some ⟨1, 100, 12345⟩))).2.2.any isGasRecordEv) = false ∧
    tableLookup (recordGasUsage [] "0xb" 12345) "0xb" = some [12345] := by
  refine ⟨by decide, by decide, by decide⟩

/-- C7 amended: the estimator machinery itself behaves as described —
`recordGasUsage` keeps a per-key history that stays bounded by 10 and
always retains the newest observation, and `applyHistoricalAdjustment`
raises the limit to 110% of the historical average when that average
exceeds the fresh estimate — but the confirmation continuation never feeds
a receipt's gas-used value into the table: it returns the table unchanged
and emits no recording event. -/
theorem gasUsageTable_bounded_butNeverFed
    (saved : TransactionRecord) (table : GasUsageTable)
    (outcome : Except JsError (Option Receipt))
    (addr : String) (gasUsed : Nat)
    (haddr : addr ≠ "")
    (hlen : ((tableLookup table addr).getD []).length ≤ 10)
    (table2 : GasUsageTable) (addr2 : String) (history : List Nat) (est : Nat)
    (haddr2 : addr2 ≠ "") (hhist : tableLookup table2 addr2 = some history)
    (hne : history.length ≠ 0)
    (hgt : history.sum / history.length > est) :
    (confirmationContinuation saved table outcome).2.1 = table ∧
    ((confirmationContinuation saved table outcome).2.2.any isGasRecordEv) =
      false ∧
    ((tableLookup (recordGasUsage table addr gasUsed) addr).getD []).length ≤
      10 ∧
    ((tableLookup (recordGasUsage table addr gasUsed) addr).getD
      []).getLast? = some gasUsed ∧
    applyHistoricalAdjustment table2 addr2 est =
      history.sum / history.length * 110 / 100 := by
  have hbeq : (addr == "") = false := by
    cases hpe : (addr == "") with
    | true => exact absurd (by simpa using hpe) haddr
    | false => rfl
  have hbeq2 : (addr2 == "") = false := by
    cases hpe : (addr2 == "") with
    | true => exact absurd (by simpa using hpe) haddr2
    | false => rfl
  have hrec : tableLookup (recordGasUsage table addr gasUsed) addr =
      some (let h0 := (tableLookup table addr).getD [] ++ [gasUsed]
            if h0.length > 10 then h0.tail else h0) := by
    unfold recordGasUsage
    rw [if_neg (by simp [hbeq])]
    exact tableLookup_tableSet _ _ _
  refine ⟨rfl, rfl, ?_, ?_, ?_⟩
  · rw [hrec]
    simp only [Option.getD_some]
    split
    · simp only [List.length_tail, List.length_append, List.length_cons,
        List.length_nil]
      omega
    · rename_i hle
      simp only [List.length_append, List.length_cons, List.length_nil] at *
      omega
  · rw [hrec]
    simp only [Option.getD_some]
    split
    · rename_i hgt10
      cases h0 : (tableLookup table addr).getD [] with
      | nil => rw [h0] at hgt10; simp at hgt10
      | cons x xs =>
        simp only [List.cons_append, List.tail_cons]
        exact List.getLast?_concat _
    · exact List.getLast?_concat _
  · simp only [applyHistoricalAdjustment, hbeq2, Bool.false_eq_true,
      if_false, hhist]
    rw [if_neg (by simpa using hne), if_pos hgt]

theorem gasUsageTable_bounded_butNeverFed_witness :
    (confirmationContinuation
        (createTransactionRecord "w1" "0xh" "0xa" "0xb" 1000 none)
        [("0xb", [30000])] (.ok (some ⟨1, 100, 12345⟩))).2.1 =
      [("0xb", [30000])] ∧
    ((confirmationContinuation
        (createTransactionRecord "w1" "0xh" "0xa" "0xb" 1000 none)
        [("0xb", [30000])] (.ok (some ⟨1, 100, 12345⟩))).2.2.any
      isGasRecordEv) = false ∧
    ((tableLookup (recordGasUsage [("0xb", [30000])] "0xb" 12345)
      "0xb").getD []).length ≤ 10 ∧
    ((tableLookup (recordGasUsage [("0xb", [30000])] "0xb" 12345)
      "0xb").getD []).getLast? = some 12345 ∧
    applyHistoricalAdjustment [("0xc", [200000])] "0xc" 25200 =
      [200000].sum / [200000].length * 110 / 100 :=
  gasUsageTable_bounded_butNeverFed
    (createTransactionRecord "w1" "0xh" "0xa" "0xb" 1000 none)
    [("0xb", [30000])] (.ok (some ⟨1, 100, 12345⟩)) "0xb" 12345
    (by decide) (by decide) [("0xc", [200000])] "0xc" [200000] 25200
    (by decide) (by decide) (by decide) (by decide)

/-- Full trace of an `executeWithRetry` run in which every attempt raises
the same retryable error under the default config: three send attempts,
a backoff sleep after the first and second only, gas parameters readjusted
before the second and third, and a final thrown error carrying the
normalized message of the last raw error. -/
theorem executeGo_allFail_trace (e : JsError) (envs : Nat → AttemptEnv)
    (rands : Nat → ℚ) (tx : TxReq)
    (henv : ∀ j, (envs j).sendResult = .error e)
    (hre : isRetryableError DEFAULT_RETRY_CONFIG e = true) :
    executeWithRetry DEFAULT_RETRY_CONFIG envs rands tx =
      (.error ⟨parseErrorMessage e.message, none⟩,
        [.attempted tx.gasPrice,
         .slept (calculateDelay DEFAULT_RETRY_CONFIG 1 (rands 1)),
         .attempted (adjustGasParameters (envs 1) tx 1).gasPrice,
         .slept (calculateDelay DEFAULT_RETRY_CONFIG 2 (rands 2)),
         .attempted (adjustGasParameters (envs 2)
           (adjustGasParameters (envs 1) tx 1) 2).gasPrice]) := by
  unfold executeWithRetry
  have hre2 := hre
  simp only [DEFAULT_RETRY_CONFIG] at hre2
  show executeGo DEFAULT_RETRY_CONFIG envs rands tx 0 none (3 + 1) = _
  rw [executeGo]
  simp only [henv 0, henv 1, henv 2, hre, DEFAULT_RETRY_CONFIG, hre2]
  norm_num
  rw [executeGo]
  simp only [henv 0, henv 1, henv 2, hre, DEFAULT_RETRY_CONFIG, hre2]
  norm_num
  rw [executeGo]
  simp only [henv 0, henv 1, henv 2, hre, DEFAULT_RETRY_CONFIG, hre2]
  norm_num
  rw [executeGo]
  simp only [henv 0, henv 1, henv 2, hre, DEFAULT_RETRY_CONFIG, hre2]
  norm_num

/-- An `executeWithRetry` run whose first attempt raises a non-retryable
error rethrows that error at once: one send attempt, no sleeps, the
original error object (not a normalized rewrite). -/
theorem executeGo_fatal_abort (e : JsError) (envs : Nat → AttemptEnv)
    (rands : Nat → ℚ) (tx : TxReq)
    (henv : (envs 0).sendResult = .error e)
    (hnr : isRetryableError DEFAULT_RETRY_CONFIG e = false) :
    executeWithRetry DEFAULT_RETRY_CONFIG envs rands tx =
      (.error e, [.attempted tx.gasPrice]) := by
  unfold executeWithRetry
  have hnr2 := hnr
  simp only [DEFAULT_RETRY_CONFIG] at hnr2
  show executeGo DEFAULT_RETRY_CONFIG envs rands tx 0 none (3 + 1) = _
  rw [executeGo]
  simp only [henv, hnr, DEFAULT_RETRY_CONFIG, hnr2]
  norm_num

/-- Recognizer for backoff sleeps among the retry events. -/
def isSleptEv : REvent → Bool
  | .slept _ => true
  | _ => false

/-- C3 counterexample: an insufficient-funds error (ethers code
INSUFFICIENT_FUNDS, standard node message) is classified retryable by the
code, because INSUFFICIENT_FUNDS is listed in
`DEFAULT_RETRY_CONFIG.retryableErrors` — the claim says such an error is
fatal and aborts immediately. -/
theorem insufficientFunds_classifiedRetryable :
    isRetryableError DEFAULT_RETRY_CONFIG
      ⟨"insufficient funds for intrinsic transaction cost",
        some "INSUFFICIENT_FUNDS"⟩ = true ∧
    strIncludes (jsLower "insufficient funds for intrinsic transaction cost")
      "insufficient funds" = true := by
  refine ⟨by decide, by decide⟩

/-- C3 amended: the classifier matches the implemented retryable set —
which, beyond the network/rate-limit/nonce/replacement/gas-estimation
faults of the claim, also contains insufficient-funds and the
UNKNOWN_ERROR and NOT_IMPLEMENTED ethers codes; an error it classifies
non-retryable aborts the run at once, rethrowing the original error after
a single attempt with no backoff sleep and no further attempts. -/
theorem fatalError_abortsWithoutConsumingAttempts
    (e : JsError) (envs : Nat → AttemptEnv) (rands : Nat → ℚ) (tx : TxReq)
    (henv : (envs 0).sendResult = .error e)
    (hnr : isRetryableError DEFAULT_RETRY_CONFIG e = false) :
    executeWithRetry DEFAULT_RETRY_CONFIG envs rands tx =
      (.error e, [.attempted tx.gasPrice]) ∧
    isRetryableError DEFAULT_RETRY_CONFIG ⟨"", some "UNKNOWN_ERROR"⟩ = true ∧
    isRetryableError DEFAULT_RETRY_CONFIG ⟨"", some "NOT_IMPLEMENTED"⟩ =
      true ∧
    isRetryableError DEFAULT_RETRY_CONFIG
      ⟨"insufficient funds for gas * price + value",
        some "INSUFFICIENT_FUNDS"⟩ = true :=
  ⟨executeGo_fatal_abort e envs rands tx henv hnr, by decide, by decide,
    by decide⟩

theorem fatalError_abortsWithoutConsumingAttempts_witness :
    executeWithRetry DEFAULT_RETRY_CONFIG
        (fun _ => ⟨.error ⟨"user rejected action", some "ACTION_REJECTED"⟩,
          .ok (some 100), .ok 21000, .ok 5⟩) (fun _ => 0)
        ⟨"0xb", 1000, some 100, some 21000, some 5, none, none⟩ =
      (.error ⟨"user rejected action", some "ACTION_REJECTED"⟩,
        [.attempted (some 100)]) ∧
    isRetryableError DEFAULT_RETRY_CONFIG ⟨"", some "UNKNOWN_ERROR"⟩ = true ∧
    isRetryableError DEFAULT_RETRY_CONFIG ⟨"", some "NOT_IMPLEMENTED"⟩ =
      true ∧
    isRetryableError DEFAULT_RETRY_CONFIG
      ⟨"insufficient funds for gas * price + value",
        some "INSUFFICIENT_FUNDS"⟩ = true :=
  fatalError_abortsWithoutConsumingAttempts
    ⟨"user rejected action", some "ACTION_REJECTED"⟩
    (fun _ => ⟨.error ⟨"user rejected action", some "ACTION_REJECTED"⟩,
      .ok (some 100), .ok 21000, .ok 5⟩) (fun _ => 0)
    ⟨"0xb", 1000, some 100, some 21000, some 5, none, none⟩
    rfl (by decide)

/-- C4 counterexample: three attempts with a retryable network error where
the freshly fetched network price drops from 100 to 50 wei between the
first and second attempt: the attempt prices are 100, 55, 60 — the second
attempt's price (55 = 50·110/100) is strictly below the first attempt's
price (100), refuting the claimed non-decreasing price sequence (the +10%
bump is applied to the freshly fetched price, not to the original one). -/
theorem retryPrice_dropsWhenFreshFeeDrops :
    attemptPrices (executeWithRetry DEFAULT_RETRY_CONFIG
        (fun i => ⟨.error ⟨"NETWORK_ERROR", some "NETWORK_ERROR"⟩,
          .ok (some (if i == 0 then 100 else 50)), .ok 21000, .ok 5⟩)
        (fun _ => 0)
        ⟨"0xb", 1000, some 100, some 21000, some 5, none, none⟩).2 =
      [some 100, some 55, some 60] ∧
    (55 : Nat) < 100 := by
  refine ⟨by decide, by decide⟩

theorem bumpPct_monotone {a b : Nat} (hab : a ≤ b) (P : Nat) :
    P * bumpPct a / 100 ≤ P * bumpPct b / 100 := by
  apply Nat.div_le_div_right
  apply Nat.mul_le_mul_left
  unfold bumpPct
  omega

/-- C4 amended: the bump multiplier applied on retry `attempt` is
`(100 + 10·attempt)%` of the freshly fetched network price, so for an
unchanged fetched price `P` the adjusted prices are non-decreasing across
attempts; and after three retryable failures the executor has made exactly
3 attempts and raises the normalized user-facing message of the last
error. -/
theorem retryBump_monotoneUnderStableFee_threeAttempts
    (P : Nat) (hP : P ≠ 0) (a b : Nat) (hab : a ≤ b)
    (tx0 : TxReq) (envA : AttemptEnv)
    (hA : envA.feeDataRes = .ok (some P))
    (e : JsError) (envs : Nat → AttemptEnv) (rands : Nat → ℚ) (tx : TxReq)
    (henv : ∀ j, (envs j).sendResult = .error e)
    (hre : isRetryableError DEFAULT_RETRY_CONFIG e = true) :
    (adjustGasParameters envA tx0 a).gasPrice = some (P * bumpPct a / 100) ∧
    P * bumpPct a / 100 ≤ P * bumpPct b / 100 ∧
    (attemptPrices (executeWithRetry DEFAULT_RETRY_CONFIG envs rands
      tx).2).length = 3 ∧
    (executeWithRetry DEFAULT_RETRY_CONFIG envs rands tx).1 =
      .error ⟨parseErrorMessage e.message, none⟩ := by
  have htru : truthyNat (some P) = true := by simp [truthyNat, hP]
  refine ⟨?_, bumpPct_monotone hab P, ?_, ?_⟩
  · cases hgl : truthyNat tx0.gasLimit <;> cases hnc : truthyNat tx0.nonce <;>
      cases eg : envA.estimateGasRes <;> cases nr : envA.nonceRes <;>
      simp [adjustGasParameters, hA, htru, hgl, hnc, eg, nr]
  · rw [executeGo_allFail_trace e envs rands tx henv hre]
    simp [attemptPrices]
  · rw [executeGo_allFail_trace e envs rands tx henv hre]

theorem retryBump_monotoneUnderStableFee_threeAttempts_witness :
    (adjustGasParameters
        ⟨.error ⟨"NETWORK_ERROR", some "NETWORK_ERROR"⟩, .ok (some 100),
          .ok 21000, .ok 5⟩
        ⟨"0xb", 1000, some 100, some 21000, some 5, none, none⟩ 1).gasPrice =
      some (100 * bumpPct 1 / 100) ∧
    100 * bumpPct 1 / 100 ≤ 100 * bumpPct 2 / 100 ∧
    (attemptPrices (executeWithRetry DEFAULT_RETRY_CONFIG
      (fun _ => ⟨.error ⟨"NETWORK_ERROR", some "NETWORK_ERROR"⟩,
        .ok (some 100), .ok 21000, .ok 5⟩) (fun _ => 0)
      ⟨"0xb", 1000, some 100, some 21000, some 5, none, none⟩).2).length =
      3 ∧
    (executeWithRetry DEFAULT_RETRY_CONFIG
      (fun _ => ⟨.error ⟨"NETWORK_ERROR", some "NETWORK_ERROR"⟩,
        .ok (some 100), .ok 21000, .ok 5⟩) (fun _ => 0)
      ⟨"0xb", 1000, some 100, some 21000, some 5, none, none⟩).1 =
      .error ⟨parseErrorMessage "NETWORK_ERROR", none⟩ :=
  retryBump_monotoneUnderStableFee_threeAttempts 100 (by decide) 1 2
    (by decide)
    ⟨"0xb", 1000, some 100, some 21000, some 5, none, none⟩
    ⟨.error ⟨"NETWORK_ERROR", some "NETWORK_ERROR"⟩, .ok (some 100),
      .ok 21000, .ok 5⟩ rfl
    ⟨"NETWORK_ERROR", some "NETWORK_ERROR"⟩
    (fun _ => ⟨.error ⟨"NETWORK_ERROR", some "NETWORK_ERROR"⟩,
      .ok (some 100), .ok 21000, .ok 5⟩) (fun _ => 0)
    ⟨"0xb", 1000, some 100, some 21000, some 5, none, none⟩
    (fun _ => rfl) (by decide)

/-- C9: for the attempt indices at which a delay is actually taken
(1 ≤ i < maxRetries = 3) and any jitter draw in [0,1], the delay equals
the exponential value 1000·2^(i−1) ms scaled by the jitter factor
(0.5 + rand·0.5) and capped at 30000 ms; hence it is at most 30000 ms and
at least half the unjittered exponential value; and in a run that exhausts
all three attempts the sleeps sit strictly between attempts — the trace is
attempt, sleep, attempt, sleep, attempt, with no sleep after the final
attempt, and the two delays are exactly `calculateDelay` at indices 1
and 2. -/
theorem backoffDelay_bounds_and_placement
    (i : Nat) (rand : ℚ) (hi1 : 1 ≤ i)
    (hi2 : i < DEFAULT_RETRY_CONFIG.maxRetries)
    (hr0 : 0 ≤ rand) (hr1 : rand ≤ 1)
    (e : JsError) (envs : Nat → AttemptEnv) (rands : Nat → ℚ) (tx : TxReq)
    (henv : ∀ j, (envs j).sendResult = .error e)
    (hre : isRetryableError DEFAULT_RETRY_CONFIG e = true) :
    calculateDelay DEFAULT_RETRY_CONFIG i rand =
      min ((1000 : ℚ) * 2 ^ (i - 1) * (1 / 2 + rand * (1 / 2))) 30000 ∧
    calculateDelay DEFAULT_RETRY_CONFIG i rand ≤ 30000 ∧
    (1000 : ℚ) * 2 ^ (i - 1) / 2 ≤ calculateDelay DEFAULT_RETRY_CONFIG i rand ∧
    ((executeWithRetry DEFAULT_RETRY_CONFIG envs rands tx).2.map isSleptEv) =
      [false, true, false, true, false] ∧
    sleptDelays (executeWithRetry DEFAULT_RETRY_CONFIG envs rands tx).2 =
      [calculateDelay DEFAULT_RETRY_CONFIG 1 (rands 1),
       calculateDelay DEFAULT_RETRY_CONFIG 2 (rands 2)] := by
  have hcd : calculateDelay DEFAULT_RETRY_CONFIG i rand =
      min ((1000 : ℚ) * 2 ^ (i - 1) * (1 / 2 + rand * (1 / 2))) 30000 := by
    simp [calculateDelay, DEFAULT_RETRY_CONFIG]
  refine ⟨hcd, ?_, ?_, ?_, ?_⟩
  · rw [hcd]
    exact min_le_right _ _
  · rw [hcd]
    apply le_min
    · have hpow : (0 : ℚ) ≤ 1000 * 2 ^ (i - 1) := by positivity
      have hj : (1 / 2 : ℚ) ≤ 1 / 2 + rand * (1 / 2) := by linarith
      calc (1000 : ℚ) * 2 ^ (i - 1) / 2
          = 1000 * 2 ^ (i - 1) * (1 / 2) := by ring
        _ ≤ 1000 * 2 ^ (i - 1) * (1 / 2 + rand * (1 / 2)) :=
            mul_le_mul_of_nonneg_left hj hpow
    · have hi2' : i < 3 := hi2
      interval_cases i <;> norm_num
  · rw [executeGo_allFail_trace e envs rands tx henv hre]
    simp [isSleptEv]
  · rw [executeGo_allFail_trace e envs rands tx henv hre]
    simp [sleptDelays]

theorem backoffDelay_bounds_and_placement_witness :
    calculateDelay DEFAULT_RETRY_CONFIG 1 (1 / 3) =
      min ((1000 : ℚ) * 2 ^ (1 - 1) * (1 / 2 + 1 / 3 * (1 / 2))) 30000 ∧
    calculateDelay DEFAULT_RETRY_CONFIG 1 (1 / 3) ≤ 30000 ∧
    (1000 : ℚ) * 2 ^ (1 - 1) / 2 ≤ calculateDelay DEFAULT_RETRY_CONFIG 1 (1 / 3) ∧
    ((executeWithRetry DEFAULT_RETRY_CONFIG
      (fun _ => ⟨.error ⟨"NETWORK_ERROR", some "NETWORK_ERROR"⟩,
        .ok (some 100), .ok 21000, .ok 5⟩) (fun _ => 0)
      ⟨"0xb", 1000, some 100, some 21000, some 5, none, none⟩).2.map
        isSleptEv) = [false, true, false, true, false] ∧
    sleptDelays (executeWithRetry DEFAULT_RETRY_CONFIG
      (fun _ => ⟨.error ⟨"NETWORK_ERROR", some "NETWORK_ERROR"⟩,
        .ok (some 100), .ok 21000, .ok 5⟩) (fun _ => 0)
      ⟨"0xb", 1000, some 100, some 21000, some 5, none, none⟩).2 =
      [calculateDelay DEFAULT_RETRY_CONFIG 1 0,
       calculateDelay DEFAULT_RETRY_CONFIG 2 0] :=
  backoffDelay_bounds_and_placement 1 (1 / 3) (by decide) (by decide)
    (by norm_num) (by norm_num)
    ⟨"NETWORK_ERROR", some "NETWORK_ERROR"⟩
    (fun _ => ⟨.error ⟨"NETWORK_ERROR", some "NETWORK_ERROR"⟩,
      .ok (some 100), .ok 21000, .ok 5⟩) (fun _ => 0)
    ⟨"0xb", 1000, some 100, some 21000, some 5, none, none⟩
    (fun _ => rfl) (by decide)

/-- C2 counterexample: the caller supplies both gas parameters
(gasLimit 21000, gasPrice "20" gwei), the wallet balance equals the amount
exactly, so balance < amount + caller-declared worst-case cost
(21000 · 20 gwei > 0) — yet the manual-gas branch only checks
balance < amount, raises nothing, submits, and creates a pending record. -/
theorem manualGasPath_ignoresDeclaredCost :
    (10 : Nat) ^ 18 < 10 ^ 18 + 21000 * parseUnitsGwei "20" ∧
    (sendTransactionSync ⟨"w1", "0xb", 10 ^ 18, some 21000, some "20"⟩ "0xa"
        ⟨10 ^ 18, getFallbackEstimate,
          fun _ => ⟨.ok "0xhash", .ok none, .ok 21000, .ok 1⟩,
          fun _ => 0⟩).1 =
      .ok (createTransactionRecord "w1" "0xhash" "0xa" "0xb" (10 ^ 18)
        (some "20")) ∧
    (sendTransactionSync ⟨"w1", "0xb", 10 ^ 18, some 21000, some "20"⟩ "0xa"
        ⟨10 ^ 18, getFallbackEstimate,
          fun _ => ⟨.ok "0xhash", .ok none, .ok 21000, .ok 1⟩,
          fun _ => 0⟩).2.contains .submittedEv = true ∧
    (sendTransactionSync ⟨"w1", "0xb", 10 ^ 18, some 21000, some "20"⟩ "0xa"
        ⟨10 ^ 18, getFallbackEstimate,
          fun _ => ⟨.ok "0xhash", .ok none, .ok 21000, .ok 1⟩,
          fun _ => 0⟩).2.contains .createdRecordEv = true := by
  refine ⟨by decide, by rfl, by decide, by decide⟩

/-- C2 amended: on the estimation path (either gas parameter missing), a
balance below amount + estimatedCost raises InsufficientBalance with the
estimation performed but no submission and no record creation; on the
manual path (both parameters supplied), only a balance below the amount
alone raises — again before any submission or record creation (the
caller-declared worst-case gas cost is not included in that check). -/
theorem insufficientBalance_abortsBeforeSubmission
    (data : SendInput) (fromAddr : String) (cx : SendContext)
    (hbranch : (!truthyNat data.gasLimit || !truthyStr data.gasPriceGwei) =
      true)
    (hbal : cx.balance < data.amountWei + cx.estimate.estimatedCost)
    (d2 : SendInput) (f2 : String) (cx2 : SendContext)
    (hgl : truthyNat d2.gasLimit = true)
    (hgp : truthyStr d2.gasPriceGwei = true)
    (hbal2 : cx2.balance < d2.amountWei) :
    sendTransactionSync data fromAddr cx =
      (.error (.insufficientBalance
        (data.amountWei + cx.estimate.estimatedCost) cx.balance),
        [.estimatedEv, .auditEv]) ∧
    (sendTransactionSync data fromAddr cx).2.contains .submittedEv = false ∧
    (sendTransactionSync data fromAddr cx).2.contains .createdRecordEv =
      false ∧
    sendTransactionSync d2 f2 cx2 =
      (.error (.insufficientBalance d2.amountWei cx2.balance), []) ∧
    (sendTransactionSync d2 f2 cx2).2.contains .submittedEv = false ∧
    (sendTransactionSync d2 f2 cx2).2.contains .createdRecordEv = false := by
  have h1 : sendTransactionSync data fromAddr cx =
      (.error (.insufficientBalance
        (data.amountWei + cx.estimate.estimatedCost) cx.balance),
        [.estimatedEv, .auditEv]) := by
    simp only [sendTransactionSync, hbranch, if_true]
    rw [if_pos hbal]
  have h2 : sendTransactionSync d2 f2 cx2 =
      (.error (.insufficientBalance d2.amountWei cx2.balance), []) := by
    simp only [sendTransactionSync, hgl, hgp, Bool.not_true,
      Bool.or_self, Bool.false_eq_true, if_false]
    rw [if_pos hbal2]
  refine ⟨h1, ?_, ?_, h2, ?_, ?_⟩ <;> simp [h1, h2]

theorem insufficientBalance_abortsBeforeSubmission_witness :
    sendTransactionSync ⟨"w1", "0xb", 10 ^ 18, none, none⟩ "0xa"
        ⟨0, getFallbackEstimate,
          fun _ => ⟨.ok "0xh", .ok none, .ok 21000, .ok 1⟩, fun _ => 0⟩ =
      (.error (.insufficientBalance
        (10 ^ 18 + getFallbackEstimate.estimatedCost) 0),
        [.estimatedEv, .auditEv]) ∧
    (sendTransactionSync ⟨"w1", "0xb", 10 ^ 18, none, none⟩ "0xa"
        ⟨0, getFallbackEstimate,
          fun _ => ⟨.ok "0xh", .ok none, .ok 21000, .ok 1⟩,
          fun _ => 0⟩).2.contains .submittedEv = false ∧
    (sendTransactionSync ⟨"w1", "0xb", 10 ^ 18, none, none⟩ "0xa"
        ⟨0, getFallbackEstimate,
          fun _ => ⟨.ok "0xh", .ok none, .ok 21000, .ok 1⟩,
          fun _ => 0⟩).2.contains .createdRecordEv = false ∧
    sendTransactionSync ⟨"w2", "0xb", 500, some 21000, some "20"⟩ "0xa"
        ⟨499, getFallbackEstimate,
          fun _ => ⟨.ok "0xh", .ok none, .ok 21000, .ok 1⟩, fun _ => 0⟩ =
      (.error (.insufficientBalance 500 499), []) ∧
    (sendTransactionSync ⟨"w2", "0xb", 500, some 21000, some "20"⟩ "0xa"
        ⟨499, getFallbackEstimate,
          fun _ => ⟨.ok "0xh", .ok none, .ok 21000, .ok 1⟩,
          fun _ => 0⟩).2.contains .submittedEv = false ∧
    (sendTransactionSync ⟨"w2", "0xb", 500, some 21000, some "20"⟩ "0xa"
        ⟨499, getFallbackEstimate,
          fun _ => ⟨.ok "0xh", .ok none, .ok 21000, .ok 1⟩,
          fun _ => 0⟩).2.contains .createdRecordEv = false :=
  insufficientBalance_abortsBeforeSubmission
    ⟨"w1", "0xb", 10 ^ 18, none, none⟩ "0xa"
    ⟨0, getFallbackEstimate,
      fun _ => ⟨.ok "0xh", .ok none, .ok 21000, .ok 1⟩, fun _ => 0⟩
    (by decide) (by decide)
    ⟨"w2", "0xb", 500, some 21000, some "20"⟩ "0xa"
    ⟨499, getFallbackEstimate,
      fun _ => ⟨.ok "0xh", .ok none, .ok 21000, .ok 1⟩, fun _ => 0⟩
    (by decide) (by decide) (by decide)
